import Mathlib

/-!
Verification of the knowledge-graph query-engine workflow demonstrated in
`docs/examples/query_engine/knowledge_graph_query_engine.ipynb`.

The notebook wires a `NebulaGraphStore` (space `llamaindex`, tag `entity`,
edge type `relationship`) into a `KnowledgeGraphQueryEngine` and asks it
natural-language questions.  The engine itself lives in the library, not in
the notebook, so its three-step translate / execute / synthesize pipeline is
modelled here from the specification, as a small step machine that records
an event trace; the notebook's concrete configuration, example question,
generated statement and query result are embedded verbatim.
-/

namespace KGQE

/-- An entity node: a named graph vertex carrying a single string attribute,
its name (notebook schema `CREATE TAG entity(name string)`). -/
structure Entity where
  name : String
deriving DecidableEq, Repr

/-- A relationship edge: a directed, typed edge between two entity nodes
carrying a single string attribute describing the relationship
(notebook schema `CREATE EDGE relationship(relationship string)`). -/
structure Relationship where
  src : String
  rel : String
  dst : String
deriving DecidableEq, Repr

/-- A graph space: a named container holding the entity nodes and
relationship edges (notebook space `llamaindex`). -/
structure GraphSpace where
  name : String
  entities : List Entity
  relationships : List Relationship
deriving DecidableEq, Repr

/-- A tabular query result: rows of named columns, each holding a list of
scalar strings (the shape of the notebook's logged
`e2.entity.name : [grandfather, ...]` result). -/
abbrev QueryResult := List (String × List String)

/-- Modelled from the spec: the model client (the hosted language-model
endpoint wrapped by `OpenAI(temperature=0, model=...)` in the notebook):
`translate` receives the graph schema and a question and returns one
graph-query-language statement; `synthesize` receives the question and a raw
query result and returns a natural-language answer. -/
structure ModelClient where
  translate : String → String → String
  synthesize : String → QueryResult → String

/-- The graph-store client as configured in the notebook: space name, edge
types, relationship property names, tags, and the connected graph space. -/
structure NebulaGraphStore where
  space_name : String
  edge_types : List String
  rel_prop_names : List String
  tags : List String
  space : GraphSpace
deriving DecidableEq, Repr

/-- `kwPrefixOf kw stmt` is true when statement `stmt` starts with the
query-language keyword `kw`. -/
def kwPrefixOf (kw stmt : String) : Bool :=
  kw.data.isPrefixOf stmt.data

/-- The quote character used around names in the generated statements. -/
def qchar : Char := '\''

/-- The characters after the first quote, or none when no quote occurs. -/
def dropToQuote : List Char → Option (List Char)
  | [] => none
  | c :: cs => if c = qchar then some cs else dropToQuote cs

/-- The characters before the next quote, or none when no quote occurs. -/
def takeToQuote : List Char → Option (List Char)
  | [] => none
  | c :: cs => if c = qchar then some [] else (takeToQuote cs).map (c :: ·)

/-- The text between the first pair of quotes of a statement, if any. -/
def extractQuoted (s : String) : Option String :=
  (dropToQuote s.data).bind (fun cs => (takeToQuote cs).map List.asString)

/-- The names of the entities reached by one relationship edge out of the
entity named `n`. -/
def outgoingNames (g : GraphSpace) (n : String) : List String :=
  (g.relationships.filter (fun r => r.src == n)).map Relationship.dst

/-- Modelled from the spec: the graph database's evaluation of a read-only
`MATCH ... RETURN` statement, for the statement shape the notebook logs:
the quoted name selects the source entity and the result column lists the
names of its relationship targets; a pattern without a quoted name (such as
the notebook's `MATCH ()-[e]->() RETURN e LIMIT 10` exploration query over
an unknown space) is modelled as the empty result set. -/
def matchEval (g : GraphSpace) (stmt : String) : QueryResult :=
  match extractQuoted stmt with
  | some n => [("e.entity.name", outgoingNames g n)]
  | none => []

/-- Modelled from the spec: a mutating `DELETE VERTEX` statement removes the
quoted entity and every relationship edge touching it. -/
def deleteVertexEval (g : GraphSpace) (stmt : String) : GraphSpace :=
  match extractQuoted stmt with
  | some n =>
      ⟨g.name, g.entities.filter (fun e => e.name != n),
        g.relationships.filter (fun r => r.src != n && r.dst != n)⟩
  | none => g

/-- Modelled from the spec: a mutating `INSERT VERTEX` statement adds an
entity node with the quoted name. -/
def insertVertexEval (g : GraphSpace) (stmt : String) : GraphSpace :=
  match extractQuoted stmt with
  | some n => ⟨g.name, ⟨n⟩ :: g.entities, g.relationships⟩
  | none => g

/-- Modelled from the spec: the graph database's query interface.  The
statement is taken verbatim: a `MATCH` statement is read-only and returns a
result, `INSERT` and `DELETE` statements mutate the space, and anything
else fails at the database layer with a syntax error (no validation happens
before submission). -/
def execStatement (g : GraphSpace) (stmt : String) :
    Except String (QueryResult × GraphSpace) :=
  if kwPrefixOf "MATCH" stmt then Except.ok (matchEval g stmt, g)
  else if kwPrefixOf "INSERT" stmt then Except.ok ([], insertVertexEval g stmt)
  else if kwPrefixOf "DELETE" stmt then Except.ok ([], deleteVertexEval g stmt)
  else Except.error ("SyntaxError: syntax error near " ++ stmt)

/-- Modelled from the spec: the schema description sent to the model client
with every translation request: the known tags, edge types and relationship
property names of the connected store. -/
def graphSchemaString (gs : NebulaGraphStore) : String :=
  String.intercalate ", " gs.tags ++ "; " ++
    String.intercalate ", " gs.edge_types ++ "; " ++
    String.intercalate ", " gs.rel_prop_names

/-- The query engine as constructed in the notebook: a graph store (through
the storage context) and a model client. -/
structure KnowledgeGraphQueryEngine where
  graph_store : NebulaGraphStore
  llm : ModelClient

/-- One observable event of a query run: each call to, and return from, an
external collaborator (model endpoint or graph database). -/
inductive StepEvent where
  | translateCall (question schema : String)
  | translateReturn (stmt : String)
  | executeCall (stmt : String)
  | executeReturn (res : QueryResult)
  | synthesizeCall (question : String) (res : QueryResult)
  | synthesizeReturn (answer : String)
deriving DecidableEq, Repr

/-- The phase of a query run between two steps of the pipeline. -/
inductive Phase where
  | start (question : String)
  | translated (question stmt : String)
  | executed (question : String) (res : QueryResult)
  | done (answer : String)
  | failed (msg : String)
deriving DecidableEq, Repr

/-- The whole state of a query run: the graph store and the current phase. -/
structure RunState where
  store : NebulaGraphStore
  phase : Phase

/-- Modelled from the spec: one blocking step of the
`KnowledgeGraphQueryEngine` pipeline (the engine's implementation lives in
the library, outside the notebook).  From `start` the model client
translates the question against the store's schema; from `translated` the
statement is submitted verbatim to the graph database; from `executed` the
model client synthesizes the answer from the question and the raw result.
Each step returns the next state and the events it performed. -/
def stepOnce (llm : ModelClient) (s : RunState) : RunState × List StepEvent :=
  match s.phase with
  | .start q =>
      let schema := graphSchemaString s.store
      let stmt := llm.translate schema q
      (⟨s.store, .translated q stmt⟩,
        [.translateCall q schema, .translateReturn stmt])
  | .translated q stmt =>
      match execStatement s.store.space stmt with
      | .error e => (⟨s.store, .failed e⟩, [.executeCall stmt])
      | .ok (res, sp) =>
          (⟨{ s.store with space := sp }, .executed q res⟩,
            [.executeCall stmt, .executeReturn res])
  | .executed q res =>
      let a := llm.synthesize q res
      (⟨s.store, .done a⟩, [.synthesizeCall q res, .synthesizeReturn a])
  | .done a => (⟨s.store, .done a⟩, [])
  | .failed e => (⟨s.store, .failed e⟩, [])

/-- `n` sequential steps of the pipeline, with the concatenated trace. -/
def runFrom (llm : ModelClient) : Nat → RunState → RunState × List StepEvent
  | 0, s => (s, [])
  | n + 1, s =>
      let p := stepOnce llm s
      let rest := runFrom llm n p.1
      (rest.1, p.2 ++ rest.2)

/-- The initial state of a query run on question `q`. -/
def initState (eng : KnowledgeGraphQueryEngine) (q : String) : RunState :=
  ⟨eng.graph_store, .start q⟩

/-- A complete run of the three-step pipeline on question `q`. -/
def queryRun (eng : KnowledgeGraphQueryEngine) (q : String) :
    RunState × List StepEvent :=
  runFrom eng.llm 3 (initState eng q)

/-- Modelled from the spec: `KnowledgeGraphQueryEngine.query` — the
natural-language answer for question `q`, or the propagated database
error. -/
def query (eng : KnowledgeGraphQueryEngine) (q : String) :
    Except String String :=
  match (queryRun eng q).1.phase with
  | .done a => Except.ok a
  | .failed e => Except.error e
  | _ => Except.error "incomplete run"

/-- The event trace of a run of `query` on question `q`. -/
def queryTrace (eng : KnowledgeGraphQueryEngine) (q : String) :
    List StepEvent :=
  (queryRun eng q).2

/-- The graph store as it stands after a run of `query` on question `q`. -/
def queryStore (eng : KnowledgeGraphQueryEngine) (q : String) :
    NebulaGraphStore :=
  (queryRun eng q).1.store

/-- Modelled from the spec: `KnowledgeGraphQueryEngine.generate_query` — the
secondary accessor returning the generated graph-query statement for `q`:
one translation call against the store's schema. -/
def generate_query (eng : KnowledgeGraphQueryEngine) (q : String) : String :=
  eng.llm.translate (graphSchemaString eng.graph_store) q

/-- The engine run again on the store left behind by a first `query` run:
the second of two sequential end-to-end invocations. -/
def engineAfter (eng : KnowledgeGraphQueryEngine) (q : String) :
    KnowledgeGraphQueryEngine :=
  ⟨queryStore eng q, eng.llm⟩

/-- The pipeline stage an event belongs to, in the specified order:
translate, then execute, then synthesize (call before return within each). -/
def stepRank : StepEvent → Nat
  | .translateCall .. => 0
  | .translateReturn .. => 1
  | .executeCall .. => 2
  | .executeReturn .. => 3
  | .synthesizeCall .. => 4
  | .synthesizeReturn .. => 5

/-! ### The notebook's concrete configuration

The values below are transcribed from the notebook cells: the space name,
edge types, relationship property names and tags handed to
`NebulaGraphStore`, the out-of-band administrative schema, and the example
question with its logged generated statement and query result. -/

/-- Notebook: `space_name = "llamaindex"`. -/
def space_name : String := "llamaindex"

/-- Notebook: `edge_types, rel_prop_names = ["relationship"], ["relationship"]`. -/
def edge_types : List String := ["relationship"]

/-- Notebook: `edge_types, rel_prop_names = ["relationship"], ["relationship"]`. -/
def rel_prop_names : List String := ["relationship"]

/-- Notebook: `tags = ["entity"]`. -/
def tags : List String := ["entity"]

/-- The out-of-band administrative schema, `CREATE TAG entity(name string)`:
each tag with its property names and types. -/
def ddlTags : List (String × List (String × String)) :=
  [("entity", [("name", "string")])]

/-- The out-of-band administrative schema,
`CREATE EDGE relationship(relationship string)`: each edge type with its
property names and types. -/
def ddlEdges : List (String × List (String × String)) :=
  [("relationship", [("relationship", "string")])]

/-- The notebook's `NebulaGraphStore(space_name=..., edge_types=...,
rel_prop_names=..., tags=...)` construction, connected to graph data. -/
def mkNebulaGraphStore (data : GraphSpace) : NebulaGraphStore :=
  ⟨space_name, edge_types, rel_prop_names, tags, data⟩

/-- The configuration the notebook passes to
`KnowledgeGraphIndex.from_documents` when building the index: the same
space name, edge types, relationship property names and tags. -/
structure KnowledgeGraphIndexConfig where
  space_name : String
  edge_types : List String
  rel_prop_names : List String
  tags : List String
deriving DecidableEq, Repr

/-- The index-build call's keyword arguments in the notebook. -/
def kg_index_config : KnowledgeGraphIndexConfig :=
  ⟨space_name, edge_types, rel_prop_names, tags⟩

/-! ### Deterministic mocks

A deterministic mock model client (a fixed question-to-statement mapping and
a fixed synthesis function) and a mock graph space reproducing the
notebook's logged example: question `Tell me about Peter Quill?`, the
generated `MATCH` statement, and the result listing `grandfather`,
`alternate version of Gamora` and `Guardians of the Galaxy`. -/

/-- A mock translation function: look the question up in a fixed mapping. -/
def mockTranslate (mapping : List (String × String)) :
    String → String → String :=
  fun _ q => (mapping.lookup q).getD ""

/-- A mock synthesis function: a fixed deterministic answer built from the
question and the raw result values. -/
def mockSynthesize : String → QueryResult → String :=
  fun q r =>
    q ++ " -> " ++ String.intercalate ", " (r.map Prod.snd).flatten

/-- The example question of the notebook. -/
def mockQuestion : String := "Tell me about Peter Quill?"

/-- The generated statement the notebook logs for the example question. -/
def mockStatement : String :=
  "MATCH (p:`entity`)-[:relationship]->(e:`entity`) WHERE p.`entity`.`name` == 'Peter Quill' RETURN e.`entity`.`name`;"

/-- A second question, mapped to the notebook's exploration query, whose
pattern has no quoted name and so returns the empty result set. -/
def emptyQuestion : String := "Show me some relationships?"

/-- The notebook's exploration query `MATCH ()-[e]->() RETURN e LIMIT 10`. -/
def emptyStatement : String := "MATCH ()-[e]->() RETURN e LIMIT 10"

/-- The fixed mock mapping from question to generated statement. -/
def mockMapping : List (String × String) :=
  [(mockQuestion, mockStatement), (emptyQuestion, emptyStatement)]

/-- The deterministic mock model client. -/
def mockClient : ModelClient :=
  ⟨mockTranslate mockMapping, mockSynthesize⟩

/-- A mock graph space holding the triplets behind the notebook's logged
example result. -/
def mockSpace : GraphSpace :=
  ⟨space_name,
    [⟨"Peter Quill"⟩, ⟨"grandfather"⟩, ⟨"alternate version of Gamora"⟩,
      ⟨"Guardians of the Galaxy"⟩],
    [⟨"Peter Quill", "would not take the advice of", "grandfather"⟩,
      ⟨"Peter Quill", "is in a state of depression", "alternate version of Gamora"⟩,
      ⟨"Peter Quill", "is leader of", "Guardians of the Galaxy"⟩]⟩

/-- The notebook's logged raw query result for the example question. -/
def mockResult : QueryResult :=
  [("e.entity.name",
    ["grandfather", "alternate version of Gamora", "Guardians of the Galaxy"])]

/-- The mock graph store: the notebook construction over the mock space. -/
def mockStore : NebulaGraphStore := mkNebulaGraphStore mockSpace

/-- The query engine over the deterministic mocks. -/
def mockEngine : KnowledgeGraphQueryEngine := ⟨mockStore, mockClient⟩

/-! ### Helper lemmas: the two shapes of a query run -/

/-- When the database accepts the generated statement, a query run ends in
`done` with the synthesized answer, the store carries the space the database
returned, and the trace is the full six-event pipeline. -/
theorem queryRun_ok {eng : KnowledgeGraphQueryEngine} {q : String}
    {res : QueryResult} {sp : GraphSpace}
    (h : execStatement eng.graph_store.space (generate_query eng q) =
      Except.ok (res, sp)) :
    queryRun eng q =
      (⟨{ eng.graph_store with space := sp },
          Phase.done (eng.llm.synthesize q res)⟩,
        [StepEvent.translateCall q (graphSchemaString eng.graph_store),
          StepEvent.translateReturn (generate_query eng q),
          StepEvent.executeCall (generate_query eng q),
          StepEvent.executeReturn res,
          StepEvent.synthesizeCall q res,
          StepEvent.synthesizeReturn (eng.llm.synthesize q res)]) := by
  rw [generate_query] at h
  simp [queryRun, initState, runFrom, stepOnce, h, generate_query]

/-- When the database rejects the generated statement, a query run ends in
`failed`, the store is untouched, and the trace stops at the execute call. -/
theorem queryRun_err {eng : KnowledgeGraphQueryEngine} {q : String}
    {e : String}
    (h : execStatement eng.graph_store.space (generate_query eng q) =
      Except.error e) :
    queryRun eng q =
      (⟨eng.graph_store, Phase.failed e⟩,
        [StepEvent.translateCall q (graphSchemaString eng.graph_store),
          StepEvent.translateReturn (generate_query eng q),
          StepEvent.executeCall (generate_query eng q)]) := by
  rw [generate_query] at h
  simp [queryRun, initState, runFrom, stepOnce, h, generate_query]

/-- A `MATCH` statement is executed read-only: the database returns its
evaluation and the unchanged space. -/
theorem exec_match_eq (g : GraphSpace) (stmt : String)
    (h : kwPrefixOf "MATCH" stmt = true) :
    execStatement g stmt = Except.ok (matchEval g stmt, g) := by
  simp [execStatement, h]

/-- A run whose generated statement is a `MATCH` statement leaves the graph
store exactly as it was. -/
theorem queryStore_of_match {eng : KnowledgeGraphQueryEngine} {q : String}
    (h : kwPrefixOf "MATCH" (generate_query eng q) = true) :
    queryStore eng q = eng.graph_store := by
  have hE := exec_match_eq eng.graph_store.space (generate_query eng q) h
  simp [queryStore, queryRun_ok hE]

/-! ### The claims -/

/-- C1: for every question `q`, `query` performs exactly the three-step
pipeline — a translation call with `q` and the schema, a verbatim execution
of the returned statement, and a synthesis call with `q` and the raw result
— and returns the synthesized natural-language answer. -/
theorem query_three_step_pipeline (eng : KnowledgeGraphQueryEngine)
    (q : String) (res : QueryResult) (sp : GraphSpace)
    (h : execStatement eng.graph_store.space (generate_query eng q) =
      Except.ok (res, sp)) :
    query eng q = Except.ok (eng.llm.synthesize q res) ∧
    queryTrace eng q =
      [StepEvent.translateCall q (graphSchemaString eng.graph_store),
        StepEvent.translateReturn (generate_query eng q),
        StepEvent.executeCall (generate_query eng q),
        StepEvent.executeReturn res,
        StepEvent.synthesizeCall q res,
        StepEvent.synthesizeReturn (eng.llm.synthesize q res)] := by
  constructor
  · simp [query, queryRun_ok h]
  · simp [queryTrace, queryRun_ok h]

/-- Witness for C1: on the notebook's mocked engine and example question,
`query` returns the synthesized answer and the trace is the full
six-event pipeline. -/
theorem query_three_step_pipeline_witness :
    query mockEngine mockQuestion =
      Except.ok (mockClient.synthesize mockQuestion mockResult) ∧
    queryTrace mockEngine mockQuestion =
      [StepEvent.translateCall mockQuestion (graphSchemaString mockStore),
        StepEvent.translateReturn (generate_query mockEngine mockQuestion),
        StepEvent.executeCall (generate_query mockEngine mockQuestion),
        StepEvent.executeReturn mockResult,
        StepEvent.synthesizeCall mockQuestion mockResult,
        StepEvent.synthesizeReturn
          (mockClient.synthesize mockQuestion mockResult)] :=
  query_three_step_pipeline mockEngine mockQuestion mockResult mockSpace rfl

/-- C2: `generate_query` returns exactly the intermediate statement that a
`query` run on the same question translates (and then executes): both the
translation-return and the execution-call events of the trace carry it. -/
theorem generate_query_returns_executed_statement
    (eng : KnowledgeGraphQueryEngine) (q : String) :
    StepEvent.translateReturn (generate_query eng q) ∈ queryTrace eng q ∧
    StepEvent.executeCall (generate_query eng q) ∈ queryTrace eng q := by
  cases hE : execStatement eng.graph_store.space (generate_query eng q) with
  | error e => simp [queryTrace, queryRun_err hE]
  | ok p =>
      obtain ⟨res, sp⟩ := p
      simp [queryTrace, queryRun_ok hE]

/-- C3: the statement submitted to the graph database is byte-for-byte the
statement the translation step returned: any executed statement in the
trace equals any translated statement in the trace. -/
theorem executed_statement_verbatim (eng : KnowledgeGraphQueryEngine)
    (q s t : String)
    (h1 : StepEvent.translateReturn s ∈ queryTrace eng q)
    (h2 : StepEvent.executeCall t ∈ queryTrace eng q) :
    t = s := by
  cases hE : execStatement eng.graph_store.space (generate_query eng q) with
  | error e =>
      simp [queryTrace, queryRun_err hE] at h1 h2
      rw [h1, h2]
  | ok p =>
      obtain ⟨res, sp⟩ := p
      simp [queryTrace, queryRun_ok hE] at h1 h2
      rw [h1, h2]

/-- Witness for C3: on the mocked engine the statement executed for the
example question is exactly the translated `MATCH` statement. -/
theorem executed_statement_verbatim_witness :
    generate_query mockEngine mockQuestion = mockStatement :=
  executed_statement_verbatim mockEngine mockQuestion mockStatement
    (generate_query mockEngine mockQuestion) (by decide) (by decide)

/-- C4: with a fixed mock model given by a question-to-statement mapping,
the translation step on a mapped question returns exactly the mapped
statement, unmodified. -/
theorem translation_returns_mapped_statement (store : NebulaGraphStore)
    (synth : String → QueryResult → String)
    (mapping : List (String × String)) (q s : String)
    (h : mapping.lookup q = some s) :
    generate_query ⟨store, ⟨mockTranslate mapping, synth⟩⟩ q = s := by
  simp [generate_query, mockTranslate, h]

/-- Witness for C4: the notebook's example question maps to the logged
`MATCH` statement, and the translation step returns exactly it. -/
theorem translation_returns_mapped_statement_witness :
    generate_query ⟨mockStore, ⟨mockTranslate mockMapping, mockSynthesize⟩⟩
      mockQuestion = mockStatement :=
  translation_returns_mapped_statement mockStore mockSynthesize mockMapping
    mockQuestion mockStatement rfl

/-- C5: the synthesis step is invoked with exactly the original question
and the raw query result, and the answer `query` returns to the caller is
the model client's synthesized string, unmodified. -/
theorem synthesis_called_with_question_and_result
    (eng : KnowledgeGraphQueryEngine) (q : String) (res : QueryResult)
    (sp : GraphSpace)
    (h : execStatement eng.graph_store.space (generate_query eng q) =
      Except.ok (res, sp)) :
    StepEvent.synthesizeCall q res ∈ queryTrace eng q ∧
    query eng q = Except.ok (eng.llm.synthesize q res) := by
  constructor
  · simp [queryTrace, queryRun_ok h]
  · simp [query, queryRun_ok h]

/-- Witness for C5: on the mocked engine, synthesis is called with the
example question and the logged result, and its answer is returned. -/
theorem synthesis_called_with_question_and_result_witness :
    StepEvent.synthesizeCall mockQuestion mockResult ∈
        queryTrace mockEngine mockQuestion ∧
    query mockEngine mockQuestion =
      Except.ok (mockClient.synthesize mockQuestion mockResult) :=
  synthesis_called_with_question_and_result mockEngine mockQuestion
    mockResult mockSpace rfl

/-- C6: with the deterministic mocks, a second end-to-end invocation of the
workflow on the same question — run on the store the first invocation left
behind — yields the same answer (the generated statement being a read-only
`MATCH` statement, as in the notebook). -/
theorem repeated_query_same_answer (eng : KnowledgeGraphQueryEngine)
    (q : String)
    (h : kwPrefixOf "MATCH" (generate_query eng q) = true) :
    query (engineAfter eng q) q = query eng q := by
  have hs : engineAfter eng q = eng := by
    rw [engineAfter, queryStore_of_match h]
  rw [hs]

/-- Witness for C6: two sequential runs on the mocked engine and the
example question return the same answer. -/
theorem repeated_query_same_answer_witness :
    query (engineAfter mockEngine mockQuestion) mockQuestion =
      query mockEngine mockQuestion :=
  repeated_query_same_answer mockEngine mockQuestion rfl

/-- C7: an empty query result set still reaches the synthesis step: the
synthesis call is made with the empty result unchanged and `query` returns
its answer, with no error and no separate empty-result branch. -/
theorem empty_result_still_synthesizes (eng : KnowledgeGraphQueryEngine)
    (q : String) (sp : GraphSpace)
    (h : execStatement eng.graph_store.space (generate_query eng q) =
      Except.ok ([], sp)) :
    StepEvent.synthesizeCall q [] ∈ queryTrace eng q ∧
    query eng q = Except.ok (eng.llm.synthesize q []) := by
  constructor
  · simp [queryTrace, queryRun_ok h]
  · simp [query, queryRun_ok h]

/-- Witness for C7: the notebook's exploration query returns the empty
result set, and the mocked engine still synthesizes and answers. -/
theorem empty_result_still_synthesizes_witness :
    StepEvent.synthesizeCall emptyQuestion [] ∈
        queryTrace mockEngine emptyQuestion ∧
    query mockEngine emptyQuestion =
      Except.ok (mockClient.synthesize emptyQuestion []) :=
  empty_result_still_synthesizes mockEngine emptyQuestion mockSpace rfl

/-- C8: query-time operations never modify the graph store: when the
generated statement is a read-only `MATCH` statement (the only statement
shape this workflow issues at query time), a `query` run leaves the store —
in particular every entity node and relationship edge — unchanged. -/
theorem query_preserves_graph_store (eng : KnowledgeGraphQueryEngine)
    (q : String)
    (h : kwPrefixOf "MATCH" (generate_query eng q) = true) :
    queryStore eng q = eng.graph_store ∧
    (queryStore eng q).space.entities = eng.graph_store.space.entities ∧
    (queryStore eng q).space.relationships =
      eng.graph_store.space.relationships := by
  have hs := queryStore_of_match h
  exact ⟨hs, by rw [hs], by rw [hs]⟩

/-- Witness for C8: the mocked run on the example question leaves the mock
store, its entities and its relationships exactly as they were. -/
theorem query_preserves_graph_store_witness :
    queryStore mockEngine mockQuestion = mockStore ∧
    (queryStore mockEngine mockQuestion).space.entities =
      mockSpace.entities ∧
    (queryStore mockEngine mockQuestion).space.relationships =
      mockSpace.relationships :=
  query_preserves_graph_store mockEngine mockQuestion rfl

/-- C9: execution is strictly linear and blocking: in every run the events
of the trace appear in strictly increasing pipeline order — translation
completes before execution begins and execution completes before synthesis
begins; no step ever starts before the preceding step returned. -/
theorem steps_execute_in_order (eng : KnowledgeGraphQueryEngine)
    (q : String) :
    (queryTrace eng q).Pairwise (fun a b => stepRank a < stepRank b) := by
  cases hE : execStatement eng.graph_store.space (generate_query eng q) with
  | error e =>
      simp [queryTrace, queryRun_err hE, List.pairwise_cons, stepRank]
  | ok p =>
      obtain ⟨res, sp⟩ := p
      simp [queryTrace, queryRun_ok hE, List.pairwise_cons, stepRank]

/-- C10: the graph-store configuration is fixed and internally consistent:
exactly one vertex tag `entity`, exactly one edge type `relationship`, a
`rel_prop_names` list of the same length as and positionally paired with
`edge_types`, matching the out-of-band schema; and the index build, `query`
and `generate_query` all use this same configuration. -/
theorem graph_store_config_consistent (data : GraphSpace)
    (llm : ModelClient) (q : String) :
    (mkNebulaGraphStore data).tags = ["entity"] ∧
    (mkNebulaGraphStore data).edge_types = ["relationship"] ∧
    (mkNebulaGraphStore data).rel_prop_names.length =
      (mkNebulaGraphStore data).edge_types.length ∧
    (mkNebulaGraphStore data).rel_prop_names.zip
        (mkNebulaGraphStore data).edge_types =
      [("relationship", "relationship")] ∧
    (mkNebulaGraphStore data).tags = ddlTags.map Prod.fst ∧
    (mkNebulaGraphStore data).edge_types = ddlEdges.map Prod.fst ∧
    kg_index_config =
      ⟨(mkNebulaGraphStore data).space_name,
        (mkNebulaGraphStore data).edge_types,
        (mkNebulaGraphStore data).rel_prop_names,
        (mkNebulaGraphStore data).tags⟩ ∧
    generate_query ⟨mkNebulaGraphStore data, llm⟩ q =
      llm.translate (graphSchemaString (mkNebulaGraphStore data)) q ∧
    StepEvent.translateCall q (graphSchemaString (mkNebulaGraphStore data)) ∈
      queryTrace ⟨mkNebulaGraphStore data, llm⟩ q := by
  refine ⟨rfl, rfl, rfl, rfl, rfl, rfl, rfl, rfl, ?_⟩
  cases hE : execStatement (mkNebulaGraphStore data).space
      (generate_query ⟨mkNebulaGraphStore data, llm⟩ q) with
  | error e => simp [queryTrace, queryRun_err hE]
  | ok p =>
      obtain ⟨res, sp⟩ := p
      simp [queryTrace, queryRun_ok hE]

end KGQE
